import Mathlib

/-!
Shallow embedding of `script.js` (video-gallery page): view-count
formatting, platform resolution, catalog loading/rendering, metadata
enrichment, and the modal player's listener lifecycle, together with
theorems settling the specification's claims about them.
-/

namespace Script

/-- A JavaScript number-ish input as `formatViews` can receive it:
`undefined`, `null`, `NaN`, or an actual (integer) number. -/
inductive JSNumber where
  | undef : JSNumber
  | null : JSNumber
  | nan : JSNumber
  | int (n : Int) : JSNumber
deriving DecidableEq, Repr

/-- `(num / den).toFixed(1)` for a nonnegative exact rational `num / den`:
one decimal digit, rounding to the nearest tenth (ties toward the larger
value, as ECMAScript `toFixed` specifies). -/
def toFixed1 (num den : Nat) : String :=
  let scaled := num * 10
  let q := scaled / den
  let r := scaled % den
  let n := if den ≤ 2 * r then q + 1 else q
  toString (n / 10) ++ "." ++ toString (n % 10)

/-- `.replace(/\.0$/, '')`: strip a trailing `.0`. -/
def stripDotZero (s : String) : String :=
  if ['.', '0'].isSuffixOf s.data then ⟨s.data.dropLast.dropLast⟩ else s

/-- `formatViews` from `script.js`: `!views || isNaN(views)` → `"0"`;
`≥ 1e6` → one-decimal megacount with `M`; `≥ 1e3` → one-decimal
kilocount with `K`; otherwise the plain integer string. -/
def formatViews (views : JSNumber) : String :=
  match views with
  | .undef => "0"
  | .null => "0"
  | .nan => "0"
  | .int n =>
    if n = 0 then "0"
    else if 1000000 ≤ n then stripDotZero (toFixed1 n.toNat 1000000) ++ "M"
    else if 1000 ≤ n then stripDotZero (toFixed1 n.toNat 1000) ++ "K"
    else toString n

/-! ### Platform resolver (`getYouTubeId`, `getVimeoId`, `getVideoPlatform`)

The YouTube regex is
`/(?:youtu\.be\/|youtube\.com\/(?:embed\/|v\/|watch\?v=|watch\?.+&v=))([^&?]+)/`
and the Vimeo regex is `/(?:vimeo\.com\/)(\d+)/`. We embed the exact
JavaScript matching semantics: leftmost start position wins, alternatives
are tried in written order at each position, quantified subpatterns are
greedy with backtracking, and the capture `[^&?]+` / `\d+` must be
nonempty. -/

/-- Literal prefix test: does the literal `lit` occur at the head of
`l`? (`List.isPrefixOf`, defined so that it reduces with an abstract
tail.) -/
def matchLit : List Char → List Char → Bool
  | [], _ => true
  | _ :: _, [] => false
  | a :: as, b :: bs => a == b && matchLit as bs

/-- Ordered regex alternation on match results: the first alternative
that succeeds wins. -/
def regexAlt (a b : Option (List Char)) : Option (List Char) :=
  match a with
  | some r => some r
  | none => b

/-- `[^&?]*`: the maximal run of characters other than `&` and `?`. -/
def takeNonSep (l : List Char) : List Char :=
  l.takeWhile fun c => c ≠ '&' && c ≠ '?'

/-- `([^&?]+)`: the maximal nonempty run of non-separator characters,
or failure when it is empty. -/
def capNonSep (l : List Char) : Option (List Char) :=
  match takeNonSep l with
  | [] => none
  | c :: t => some (c :: t)

/-- Greedy `.+&v=([^&?]+)` tail: among all positions in `l` where the
literal `&v=` occurs and is followed by a nonempty capture, the greedy
`.+` picks the rightmost one. -/
def lastAmpV : List Char → Option (List Char)
  | [] => none
  | c :: t =>
    regexAlt (lastAmpV t)
      (if matchLit "&v=".data (c :: t) then capNonSep ((c :: t).drop 3)
       else none)

/-- After the literal `watch?`: try `v=([^&?]+)` first, then
`.+&v=([^&?]+)` with greedy `.+` (which must consume at least one
character). -/
def tryWatch (rest : List Char) : Option (List Char) :=
  regexAlt (if matchLit "v=".data rest then capNonSep (rest.drop 2) else none)
    (match rest with
     | [] => none
     | _ :: t => lastAmpV t)

/-- The full YouTube alternation anchored at the current position. -/
def tryYouTubeAt (l : List Char) : Option (List Char) :=
  regexAlt (if matchLit "youtu.be/".data l then capNonSep (l.drop 9) else none)
    (if matchLit "youtube.com/".data l then
      let r := l.drop 12
      regexAlt (if matchLit "embed/".data r then capNonSep (r.drop 6) else none)
        (regexAlt (if matchLit "v/".data r then capNonSep (r.drop 2) else none)
          (if matchLit "watch?".data r then tryWatch (r.drop 6) else none))
     else none)

/-- `url.match(ytRegex)`: scan start positions left to right. -/
def scanYouTube : List Char → Option (List Char)
  | [] => none
  | c :: t => regexAlt (tryYouTubeAt (c :: t)) (scanYouTube t)

/-- `getYouTubeId` from `script.js` (argument `none` models a missing /
null URL; `!url` also rejects the empty string). -/
def getYouTubeId (url : Option String) : Option String :=
  match url with
  | none => none
  | some s =>
    if s = "" then none
    else (scanYouTube s.data).map fun l => ⟨l⟩

/-- `(\d+)`: maximal nonempty digit run, or failure. -/
def capDigits (l : List Char) : Option (List Char) :=
  match l.takeWhile Char.isDigit with
  | [] => none
  | c :: t => some (c :: t)

/-- The Vimeo pattern anchored at the current position. -/
def tryVimeoAt (l : List Char) : Option (List Char) :=
  if matchLit "vimeo.com/".data l then capDigits (l.drop 10) else none

/-- `url.match(vimeoRegex)`: scan start positions left to right. -/
def scanVimeo : List Char → Option (List Char)
  | [] => none
  | c :: t => regexAlt (tryVimeoAt (c :: t)) (scanVimeo t)

/-- `getVimeoId` from `script.js`. -/
def getVimeoId (url : Option String) : Option String :=
  match url with
  | none => none
  | some s =>
    if s = "" then none
    else (scanVimeo s.data).map fun l => ⟨l⟩

/-- The `{ platform, id }` result of `getVideoPlatform`. -/
structure PlatformInfo where
  platform : String
  id : String
deriving DecidableEq, Repr

/-- `getVideoPlatform` from `script.js`: YouTube first, then Vimeo,
else null. -/
def getVideoPlatform (url : Option String) : Option PlatformInfo :=
  match getYouTubeId url with
  | some i => some ⟨"youtube", i⟩
  | none =>
    match getVimeoId url with
    | some i => some ⟨"vimeo", i⟩
    | none => none

/-! ### Catalog loader data model

The gviz response payload is `{ table: { cols: [{label}], rows: [{ c:
[{v, f}] }] } }`. Cell values are modelled as strings / integers /
booleans with JavaScript truthiness. -/

/-- A JavaScript value as it appears in a sheet cell or video record. -/
inductive JSVal where
  | str (s : String) : JSVal
  | num (n : Int) : JSVal
  | bool (b : Bool) : JSVal
deriving DecidableEq, Repr

/-- JavaScript truthiness of a `JSVal`. -/
def JSVal.truthy : JSVal → Bool
  | .str s => s ≠ ""
  | .num n => n ≠ 0
  | .bool b => b

/-- JavaScript string coercion of a `JSVal` (as used by template
literals and `dataset` assignment). -/
def jsToStr : JSVal → String
  | .str s => s
  | .num n => toString n
  | .bool b => if b then "true" else "false"

/-- `a || b` on optional JS values (`none` models `undefined`). -/
def jsOr (a b : Option JSVal) : Option JSVal :=
  match a with
  | some v => if v.truthy then some v else b
  | none => b

/-- One gviz cell: `{v, f}`; `v` is `none` when it is null/undefined,
and a whole cell may itself be null (`Option Cell` in a row). -/
structure Cell where
  v : Option JSVal := none
  f : Option String := none
deriving DecidableEq, Repr

/-- `cell.v !== null && cell.v !== undefined ? cell.v : (cell.f || '')`. -/
def cellValue (c : Cell) : JSVal :=
  match c.v with
  | some v => v
  | none =>
    match c.f with
    | some s => if s ≠ "" then .str s else .str ""
    | none => .str ""

/-- One gviz column spec: `{label}` (label possibly absent/null). -/
structure ColSpec where
  label : Option String := none
deriving DecidableEq, Repr

/-- `data.table`. -/
structure Table where
  cols : List ColSpec
  rows : List (List (Option Cell))
deriving DecidableEq, Repr

/-- The fixed positional column-name fallbacks. -/
def colMap : List String := ["title", "tags", "icon", "views", "videourl", "thumbnail"]

/-- JavaScript `toLowerCase` on one (ASCII) character. -/
def jsLowerChar (c : Char) : Char :=
  if 'A' ≤ c ∧ c ≤ 'Z' then Char.ofNat (c.toNat + 32) else c

/-- JavaScript `trim`: drop leading and trailing whitespace. -/
def trimChars (l : List Char) : List Char :=
  ((l.dropWhile Char.isWhitespace).reverse.dropWhile Char.isWhitespace).reverse

/-- `(c.label || '').toLowerCase().trim()` then `label || colMap[i] ||
\`col${i}\``. -/
def colName (c : ColSpec) (i : Nat) : String :=
  let label : String := ⟨trimChars ((c.label.getD "").data.map jsLowerChar)⟩
  if label ≠ "" then label
  else
    match colMap.get? i with
    | some m => m
    | none => "col" ++ toString i

/-- A parsed video record: a JS object as an assignment sequence
(later writes to the same key overwrite earlier ones). -/
def VideoRecord := List (String × JSVal)

/-- `video[k] = v` on the assoc-list representation. -/
def setField (m : List (String × JSVal)) (k : String) (v : JSVal) :
    List (String × JSVal) :=
  match m with
  | [] => [(k, v)]
  | (k', v') :: t => if k' = k then (k, v) :: t else (k', v') :: setField t k v

/-- `video[k]` (`none` models `undefined`). -/
def getField (m : List (String × JSVal)) (k : String) : Option JSVal :=
  match m with
  | [] => none
  | (k', v') :: t => if k' = k then some v' else getField t k

/-- `row.c.forEach((cell, i) => { if (cols[i] && cell) video[cols[i]] =
... })`. -/
def buildVideo (cols : List String) (cells : List (Option Cell)) :
    List (String × JSVal) :=
  cells.enum.foldl
    (fun video p =>
      match p.2 with
      | some c =>
        match cols.get? p.1 with
        | some name => if name ≠ "" then setField video name (cellValue c) else video
        | none => video
      | none => video)
    []

/-! ### Card renderer (`createVideoCard`, `getThumbnail`) -/

/-- The fixed 6-entry fallback gradient palette. -/
def FALLBACK_GRADIENTS : List (String × String) :=
  [("#ff6b9d", "#c44dff"),
   ("#4de1ff", "#4d7cff"),
   ("#ffeb4d", "#ff9d4d"),
   ("#4dff88", "#4de1ff"),
   ("#ff4d88", "#ff4dcd"),
   ("#c44dff", "#4d88ff")]

/-- `getThumbnail(videoUrl, customThumbnail)`: custom thumbnail if
truthy, else the derived YouTube thumbnail, else null (Vimeo thumbnails
are fetched later). -/
def getThumbnail (videoUrl : String) (custom : Option JSVal) : Option String :=
  if (match custom with | some v => v.truthy | none => false) then
    some (jsToStr (custom.getD (.str "")))
  else
    match getYouTubeId (some videoUrl) with
    | some yt => some ("https://img.youtube.com/vi/" ++ yt ++ "/hqdefault.jpg")
    | none => none

/-- `video.videourl || video.videoUrl || ''`, string-coerced. -/
def videoUrlOf (video : List (String × JSVal)) : String :=
  jsToStr ((jsOr (getField video "videourl")
    (jsOr (getField video "videoUrl") (some (.str "")))).getD (.str ""))

/-- The rendered card: its `dataset` entries and the user-visible
pieces the claims are about. `thumbBackground` is the value of the
thumbnail element's `background` style; `viewText` is the `.view-count`
text content. -/
structure Card where
  tags : String
  videoUrl : String
  platform : Option (String × String)
  thumbBackground : String
  icon : Option String
  title : String
  viewText : String
deriving DecidableEq, Repr

/-- `createVideoCard(video, index)` from `script.js`. -/
def createVideoCard (video : List (String × JSVal)) (index : Nat) : Card :=
  let videoUrl := videoUrlOf video
  let platform := getVideoPlatform (some videoUrl)
  let thumbnail := getThumbnail videoUrl (getField video "thumbnail")
  let gradient := (FALLBACK_GRADIENTS.get? (index % FALLBACK_GRADIENTS.length)).getD ("", "")
  let thumbBackground :=
    match thumbnail with
    | some t => "url('" ++ t ++ "') center/cover"
    | none => "linear-gradient(135deg, " ++ gradient.1 ++ ", " ++ gradient.2 ++ ")"
  let initialViews :=
    match platform with
    | some p => if p.platform = "youtube" then "Loading..."
                else jsToStr ((jsOr (getField video "views") (some (.str "0"))).getD (.str "0"))
    | none => jsToStr ((jsOr (getField video "views") (some (.str "0"))).getD (.str "0"))
  { tags := jsToStr ((jsOr (getField video "tags") (some (.str ""))).getD (.str ""))
    videoUrl := videoUrl
    platform := platform.map fun p => (p.platform, p.id)
    thumbBackground := thumbBackground
    icon :=
      match getField video "icon" with
      | some v => if v.truthy then some (jsToStr v) else none
      | none => none
    title := jsToStr ((jsOr (getField video "title") (some (.str "Untitled"))).getD (.str "Untitled"))
    viewText := "⭐ " ++ initialViews ++ " views" }

/-- `if (video.title)`: the loader keeps only records with a truthy
title. -/
def titledVideo (video : List (String × JSVal)) : Bool :=
  match getField video "title" with
  | some v => v.truthy
  | none => false

/-! ### Catalog loader (`loadVideosFromSheet`)

The gviz response is `google.visualization.Query.setResponse(<json>);`,
matched with `/google\.visualization\.Query\.setResponse\(([\s\S]*)\);?$/`.
With the greedy `[\s\S]*` and the end anchor, the capture is everything
between the first occurrence of the literal prefix and the closing `)`
(followed by an optional `;`) at the very end of the text. -/

/-- The literal regex prefix `google.visualization.Query.setResponse(`. -/
def respMarker : List Char := "google.visualization.Query.setResponse(".data

/-- Match `([\s\S]*)\);?$` against the text remaining after the marker:
the greedy capture leaves exactly a final `)` or `);`. -/
def envelopeTail (rest : List Char) : Option (List Char) :=
  if [')', ';'].isSuffixOf rest then some (rest.dropLast.dropLast)
  else if [')'].isSuffixOf rest then some rest.dropLast
  else none

/-- Scan start positions left to right for the marker; on marker hit,
match the anchored tail (later marker occurrences would see the same
text end, so the first hit decides). -/
def scanEnvelope : List Char → Option (List Char)
  | [] => none
  | c :: t =>
    match (if matchLit respMarker (c :: t) then envelopeTail ((c :: t).drop respMarker.length) else none) with
    | some r => some r
    | none => scanEnvelope t

/-- `text.match(/google\.visualization\.Query\.setResponse\(([\s\S]*)\);?$/)`:
the captured JSON payload, or `none` (→ `throw new Error('Invalid
response format')`). -/
def envelopeExtract (text : String) : Option String :=
  (scanEnvelope text.data).map fun l => ⟨l⟩

/-- The per-row body of the loader's `forEach`: build the record for
one data row (paired with its data-row index) and keep it only when
its title is truthy. -/
def rowToCard (cols : List String) (p : Nat × List (Option Cell)) : Option Card :=
  let video := buildVideo cols p.2
  if titledVideo video then some (createVideoCard video p.1) else none

/-- The row-rendering phase of `loadVideosFromSheet`: resolve column
names, and only when `rows.length > 1` clear the grid and rebuild it
from `rows.slice(1)` via `rowToCard`; otherwise the grid keeps its
previous cards. -/
def renderRows (table : Table) (grid : List Card) : List Card :=
  let cols := table.cols.enum.map fun p => colName p.2 p.1
  if 1 < table.rows.length then
    (table.rows.drop 1).enum.filterMap (rowToCard cols)
  else grid

/-- Outcome of one `loadVideosFromSheet` run: the grid contents
afterwards, and whether the entrance animation and the asynchronous
enrichment passes (`updateAllViewCounts` / `updateVimeoThumbnails`)
were triggered. -/
structure LoadResult where
  grid : List Card
  animated : Bool
  enriched : Bool
deriving DecidableEq, Repr

/-- `loadVideosFromSheet` from `script.js`. `fetched` is the response
text (`none` models a network/`text()` failure), and `parseJSON` models
the platform's `JSON.parse` on the captured payload (`none` = throw).
Every failure lands in the `catch` block, which only logs, leaves the
grid untouched and re-runs the entrance animation. -/
def loadVideosFromSheet (fetched : Option String)
    (parseJSON : String → Option Table) (grid : List Card) : LoadResult :=
  match fetched with
  | none => ⟨grid, true, false⟩
  | some text =>
    match envelopeExtract text with
    | none => ⟨grid, true, false⟩
    | some payload =>
      match parseJSON payload with
      | none => ⟨grid, true, false⟩
      | some data => ⟨renderRows data grid, true, true⟩

/-! ### View-count fetch and its caller -/

/-- `fetchYouTubeViews(videoId)`: `endpoint` is the outcome of
`fetch` + `response.json()` — `none` models any network or JSON-parse
failure (the `catch` returns null), `some views` the `views` field of
the parsed body (`JSNumber.undef` when the field is absent). The code
returns `data.views || null`, so a falsy count (0, NaN, null) also
becomes null. -/
def fetchYouTubeViews (endpoint : Option JSNumber) : Option Int :=
  match endpoint with
  | none => none
  | some v =>
    match v with
    | .int n => if n ≠ 0 then some n else none
    | _ => none

/-- The per-card body of `updateAllViewCounts`: when the fetched views
are not null, rewrite the `.view-count` text; otherwise leave the card
exactly as it was. -/
def applyViewCount (card : Card) (views : Option Int) : Card :=
  match views with
  | none => card
  | some v => { card with viewText := "⭐ " ++ formatViews (.int v) ++ " views" }

/-- `updateAllViewCounts`: every card whose `data-platform` is
`youtube` is updated from its own fetch outcome (`endpoint vid`); other
cards are not selected. -/
def updateAllViewCounts (cards : List Card)
    (endpoint : String → Option JSNumber) : List Card :=
  cards.map fun card =>
    match card.platform with
    | some p =>
      if p.1 = "youtube" then applyViewCount card (fetchYouTubeViews (endpoint p.2))
      else card
    | none => card

/-! ### Vimeo thumbnail enrichment -/

/-- Substring occurrence on char lists (JavaScript `String.includes`). -/
def containsSub (l sub : List Char) : Bool :=
  match l with
  | [] => sub.isEmpty
  | _ :: t => matchLit sub l || containsSub t sub

/-- JavaScript `s.includes(sub)`. -/
def containsStr (s sub : String) : Bool :=
  containsSub s.data sub.data

/-- The per-card body of `updateVimeoThumbnails`: for a Vimeo card
whose background still contains `linear-gradient`, fetch the thumbnail
and overwrite the background when the fetch succeeds. -/
def enrichVimeoCard (fetchThumb : String → Option String) (card : Card) : Card :=
  match card.platform with
  | some p =>
    if p.1 = "vimeo" then
      if containsStr card.thumbBackground "linear-gradient" then
        match fetchThumb p.2 with
        | some u => { card with thumbBackground := "url('" ++ u ++ "') center/cover" }
        | none => card
      else card
    else card
  | none => card

/-- The video ids `updateVimeoThumbnails` actually issues a fetch for:
Vimeo cards whose background passes the `linear-gradient` check. -/
def vimeoFetchTarget (card : Card) : Option String :=
  match card.platform with
  | some p =>
    if p.1 = "vimeo" then
      if containsStr card.thumbBackground "linear-gradient" then some p.2 else none
    else none
  | none => none

/-- `updateVimeoThumbnails`: the updated cards, paired with the list of
video ids a fetch was issued for. -/
def updateVimeoThumbnails (cards : List Card)
    (fetchThumb : String → Option String) : List Card × List String :=
  (cards.map (enrichVimeoCard fetchThumb), cards.filterMap vimeoFetchTarget)

/-! ### Modal player lifecycle (`showVideoPlayer`)

State of the page as far as the modal's listeners are concerned.
Sessions are numbered in creation order; `modals` are the
`.video-player-modal` elements attached to the document in tree order,
`resizeL` / `orientL` the window `resize` / `orientationchange`
listeners, and `keyL` the document-level `keydown` Escape handlers,
each tagged with the session that registered it. -/
structure ModalState where
  nextId : Nat := 0
  modals : List Nat := []
  resizeL : List Nat := []
  orientL : List Nat := []
  keyL : List Nat := []
deriving DecidableEq, Repr

/-- The page before any modal was opened. -/
def initModal : ModalState := {}

/-- The overridden `modal.remove()` of session `sid`: it removes that
session's `resize` and `orientationchange` listeners and then detaches
the element. It does NOT touch the document `keydown` handler. -/
def modalRemove (s : ModalState) (sid : Nat) : ModalState :=
  { s with
    resizeL := s.resizeL.filter (· ≠ sid)
    orientL := s.orientL.filter (· ≠ sid)
    modals := s.modals.erase sid }

/-- The synchronous head of `showVideoPlayer`, up to the `await
fetchVimeoInfo` suspension point: query the document for an existing
`.video-player-modal` (the first one in tree order) and remove it if
present. For a Vimeo open the function suspends right after this. -/
def showVideoPlayerBegin (s : ModalState) : ModalState :=
  match s.modals.head? with
  | some old => modalRemove s old
  | none => s

/-- The tail of `showVideoPlayer`, after the (possible) suspension:
build the new modal element, register its `resize`,
`orientationchange` and `keydown` listeners, and append it to the
body. Note it does not re-check for an existing modal. -/
def showVideoPlayerFinish (s1 : ModalState) : ModalState :=
  { s1 with
    nextId := s1.nextId + 1
    resizeL := s1.resizeL ++ [s1.nextId]
    orientL := s1.orientL ++ [s1.nextId]
    keyL := s1.keyL ++ [s1.nextId]
    modals := s1.modals ++ [s1.nextId] }

/-- A `showVideoPlayer` call that runs to completion with no other open
interleaved between its teardown and its append: always the case for a
YouTube open (no `await` before the append), and for a Vimeo open whose
info fetch resolves before the next open starts. An overlapping open
interleaves `showVideoPlayerBegin`/`showVideoPlayerFinish` steps
instead. -/
def showVideoPlayer (s : ModalState) : ModalState :=
  showVideoPlayerFinish (showVideoPlayerBegin s)

/-- Close via the close button or the backdrop: both handlers just call
`modal.remove()` on the open modal. -/
def closeClick (s : ModalState) : ModalState :=
  match s.modals.head? with
  | some sid => modalRemove s sid
  | none => s

/-- Dispatch an Escape `keydown`: every registered handler runs in
registration order; each calls its session's `modal.remove()` and then
unregisters itself. -/
def pressEscape (s : ModalState) : ModalState :=
  s.keyL.foldl
    (fun st h =>
      let st1 := modalRemove st h
      { st1 with keyL := st1.keyL.filter (· ≠ h) })
    s

/-! ### Modal layout classifier (`updateLayout`) -/

/-- The three mutually exclusive branches of `updateLayout`. -/
inductive LayoutMode where
  | portraitVideo : LayoutMode
  | landscapeSmall : LayoutMode
  | defaultMode : LayoutMode
deriving DecidableEq, Repr

/-- The branch structure of `updateLayout`: `isPortrait` first, then
`isLandscapeScreen && isMobile`, else the default branch. -/
def classifyLayout (vw vh : Nat) (isPortrait : Bool) : LayoutMode :=
  let isLandscapeScreen := vh < vw
  let isMobile := vw < 768 || vh < 500
  if isPortrait then .portraitVideo
  else if isLandscapeScreen && isMobile then .landscapeSmall
  else .defaultMode

/-- `isPortrait = aspectRatio < 1`, computed in `showVideoPlayer`. -/
def classifyLayoutAR (vw vh : Nat) (aspectRatio : Rat) : LayoutMode :=
  classifyLayout vw vh (decide (aspectRatio < 1))

/-- The aspect ratio `showVideoPlayer` uses: the fetched Vimeo ratio
for platform `vimeo`, else the default `16 / 9`. -/
def modalAspect (platform : String) (vimeoAspect : Rat) : Rat :=
  if platform = "vimeo" then vimeoAspect else 16 / 9

/-- `content.style.maxWidth` as set by each `updateLayout` branch. -/
def contentMaxWidth : LayoutMode → String
  | .portraitVideo => "400px"
  | .landscapeSmall => "none"
  | .defaultMode => "800px"

/-- Column specs / rows used to witness the loader claims. -/
def c7cols : List ColSpec := [⟨some "Title"⟩]

/-- A one-cell row whose single cell holds the given title string. -/
def c7row (t : String) : List (Option Cell) := [some ⟨some (.str t), none⟩]

/-- The concrete record showing the C10 counterexample: a Vimeo video
with an explicit custom thumbnail whose URL happens to contain the
substring `linear-gradient`. -/
def c10video : List (String × JSVal) :=
  [("title", .str "Demo"),
   ("videourl", .str "https://vimeo.com/123"),
   ("thumbnail", .str "https://cdn.example.com/linear-gradient-art.jpg")]

/-! ### Evaluation checks -/

example : formatViews (.int 1500) = "1.5K" := by decide
example : formatViews (.int 2500000) = "2.5M" := by decide
example : formatViews (.int 999999) = "1000K" := by decide
example : formatViews .nan = "0" := by decide

example : getVideoPlatform (some "https://youtu.be/abc123?t=10") =
    some ⟨"youtube", "abc123"⟩ := by decide
example : getVideoPlatform (some "https://www.youtube.com/watch?v=dQw4w9WgXcQ") =
    some ⟨"youtube", "dQw4w9WgXcQ"⟩ := by decide
example : getVideoPlatform (some "https://www.youtube.com/watch?list=PL12&v=xyz_9") =
    some ⟨"youtube", "xyz_9"⟩ := by decide
example : getVideoPlatform (some "https://www.youtube.com/embed/E1") =
    some ⟨"youtube", "E1"⟩ := by decide
example : getVideoPlatform (some "https://www.youtube.com/v/V1&x=2") =
    some ⟨"youtube", "V1"⟩ := by decide
example : getVideoPlatform (some "https://vimeo.com/76979871") =
    some ⟨"vimeo", "76979871"⟩ := by decide
example : getVideoPlatform (some "https://example.com/video") = none := by decide
example : getVideoPlatform (some "") = none := by decide
example : getVideoPlatform none = none := by decide
example : getVideoPlatform (some "https://vimeo.com/123?u=youtu.be/zzz") =
    some ⟨"youtube", "zzz"⟩ := by decide

example : envelopeExtract "google.visualization.Query.setResponse(\x7bx:1\x7d);" = some "\x7bx:1\x7d" := by decide
example : envelopeExtract "/*O_o*/\ngoogle.visualization.Query.setResponse(\x7bx:1\x7d)" = some "\x7bx:1\x7d" := by decide
example : envelopeExtract "<html>error</html>" = none := by decide
example : envelopeExtract "google.visualization.Query.setResponse(x); trailing" = none := by decide

example : classifyLayoutAR 1920 1080 (16 / 9) = .defaultMode := by
  unfold classifyLayoutAR
  rw [decide_eq_false (by norm_num : ¬((16 : Rat) / 9 < 1))]
  decide
example : classifyLayoutAR 400 800 (1 / 2) = .portraitVideo := by
  unfold classifyLayoutAR
  rw [decide_eq_true (by norm_num : ((1 : Rat) / 2 < 1))]
  decide
example : classifyLayoutAR 900 400 (16 / 9) = .landscapeSmall := by
  unfold classifyLayoutAR
  rw [decide_eq_false (by norm_num : ¬((16 : Rat) / 9 < 1))]
  decide

example : renderRows ⟨c7cols, [c7row "Title", c7row "A", c7row "", c7row "B"]⟩ [] =
    [createVideoCard [("title", JSVal.str "A")] 0,
     createVideoCard [("title", JSVal.str "B")] 2] := by decide

/-! ### Helper lemmas -/

/-- Opening from a page that holds at most one modal leaves exactly one
modal attached: the existing one is erased before the new one is
appended. -/
theorem showVideoPlayer_modals_length (s : ModalState) (h : s.modals.length ≤ 1) :
    (showVideoPlayer s).modals.length = 1 := by
  match hm : s.modals with
  | [] => simp [showVideoPlayer, showVideoPlayerBegin, showVideoPlayerFinish, hm]
  | [a] => simp [showVideoPlayer, showVideoPlayerBegin, showVideoPlayerFinish, hm, modalRemove]
  | a :: b :: t => rw [hm] at h; simp at h

/-- `takeNonSep` keeps the whole list when no character is `&` or `?`. -/
theorem takeNonSep_eq_self (l : List Char) (h : ∀ c ∈ l, c ≠ '&' ∧ c ≠ '?') :
    takeNonSep l = l := by
  induction l with
  | nil => rfl
  | cons c t ih =>
    have hc := h c (by simp)
    have ht : ∀ x ∈ t, x ≠ '&' ∧ x ≠ '?' := fun x hx => h x (by simp [hx])
    unfold takeNonSep at *
    rw [List.takeWhile_cons]
    simp [hc.1, hc.2, ih ht]
    exact ht

/-- The capture `([^&?]+)` succeeds on a nonempty separator-free list. -/
theorem capNonSep_eq_self (l : List Char) (hne : l ≠ [])
    (h : ∀ c ∈ l, c ≠ '&' ∧ c ≠ '?') : capNonSep l = some l := by
  unfold capNonSep
  rw [takeNonSep_eq_self l h]
  match l, hne with
  | c :: t, _ => rfl

/-- `takeNonSep` stops exactly at a suffix that is absent or starts
with `&` or `?`. -/
theorem takeNonSep_append_sep (l : List Char) (h : ∀ c ∈ l, c ≠ '&' ∧ c ≠ '?')
    (sfx : List Char)
    (hs : sfx = [] ∨ sfx.head? = some '&' ∨ sfx.head? = some '?') :
    takeNonSep (l ++ sfx) = l := by
  induction l with
  | nil =>
    simp only [List.nil_append]
    rcases hs with rfl | hs | hs
    · rfl
    · cases sfx with
      | nil => simp at hs
      | cons c t => simp at hs; subst hs; rfl
    · cases sfx with
      | nil => simp at hs
      | cons c t => simp at hs; subst hs; rfl
  | cons c t ih =>
    have hc := h c (by simp)
    have ht := ih fun x hx => h x (by simp [hx])
    show takeNonSep (c :: (t ++ sfx)) = c :: t
    unfold takeNonSep at *
    rw [List.takeWhile_cons]
    simp [hc.1, hc.2]
    simpa using ht

/-- The capture `([^&?]+)` takes exactly the separator-free run `l`
when the rest of the input is absent or starts with `&`/`?`. -/
theorem capNonSep_append (l : List Char) (hne : l ≠ [])
    (h : ∀ c ∈ l, c ≠ '&' ∧ c ≠ '?') (sfx : List Char)
    (hs : sfx = [] ∨ sfx.head? = some '&' ∨ sfx.head? = some '?') :
    capNonSep (l ++ sfx) = some l := by
  unfold capNonSep
  rw [takeNonSep_append_sep l h sfx hs]
  match l, hne with
  | c :: t, _ => rfl

/-- The capture `(\d+)` succeeds on a nonempty all-digit list. -/
theorem capDigits_eq_self (l : List Char) (hne : l ≠ [])
    (h : ∀ c ∈ l, c.isDigit) : capDigits l = some l := by
  unfold capDigits
  rw [List.takeWhile_eq_self_iff.mpr h]
  match l, hne with
  | c :: t, _ => rfl

/-- Both YouTube markers start with `y`, so the alternation fails at
any position whose first character is not `y`. -/
theorem tryYouTubeAt_ne_y (c : Char) (t : List Char) (hc : c ≠ 'y') :
    tryYouTubeAt (c :: t) = none := by
  have hy : ('y' == c) = false := beq_eq_false_iff_ne.mpr (Ne.symm hc)
  have h1 : matchLit "youtu.be/".data (c :: t) = false := by
    show ('y' == c && matchLit "outu.be/".data t) = false
    rw [hy]
    rfl
  have h2 : matchLit "youtube.com/".data (c :: t) = false := by
    show ('y' == c && matchLit "outube.com/".data t) = false
    rw [hy]
    rfl
  unfold tryYouTubeAt
  rw [h1, h2]
  rfl

/-- The YouTube scan fails on a string containing no `y` at all. -/
theorem scanYouTube_none (l : List Char) (h : ∀ c ∈ l, c ≠ 'y') :
    scanYouTube l = none := by
  induction l with
  | nil => rfl
  | cons c t ih =>
    have ht := ih fun x hx => h x (by simp [hx])
    show regexAlt (tryYouTubeAt (c :: t)) (scanYouTube t) = none
    rw [tryYouTubeAt_ne_y c t (h c (by simp)), ht]
    rfl

/-- A scan whose very first position matches returns that match. -/
theorem scanYouTube_cons_of_some (c : Char) (t r : List Char)
    (h : tryYouTubeAt (c :: t) = some r) : scanYouTube (c :: t) = some r := by
  show regexAlt (tryYouTubeAt (c :: t)) (scanYouTube t) = some r
  rw [h]
  rfl

/-- A Vimeo scan whose very first position matches returns that match. -/
theorem scanVimeo_cons_of_some (c : Char) (t r : List Char)
    (h : tryVimeoAt (c :: t) = some r) : scanVimeo (c :: t) = some r := by
  show regexAlt (tryVimeoAt (c :: t)) (scanVimeo t) = some r
  rw [h]
  rfl

/-- `lastAmpV` fails on a list without `&`. -/
theorem lastAmpV_no_amp (l : List Char) (h : ∀ c ∈ l, c ≠ '&') :
    lastAmpV l = none := by
  induction l with
  | nil => rfl
  | cons c t ih =>
    have hc : ('&' == c) = false := beq_eq_false_iff_ne.mpr (Ne.symm (h c (by simp)))
    have ht := ih fun x hx => h x (by simp [hx])
    have hm : matchLit "&v=".data (c :: t) = false := by
      show ('&' == c && matchLit "v=".data t) = false
      rw [hc]
      rfl
    show regexAlt (lastAmpV t)
        (if matchLit "&v=".data (c :: t) then capNonSep ((c :: t).drop 3) else none) = none
    rw [ht, hm]
    rfl

/-- The greedy `.+&v=` tail: when the input is `t ++ &v= ++ I` with `I`
nonempty and separator-free, the rightmost valid marker is the explicit
one, so the capture is `I` regardless of `t`. -/
theorem lastAmpV_marker (t I : List Char) (hne : I ≠ [])
    (hsep : ∀ c ∈ I, c ≠ '&' ∧ c ≠ '?') :
    lastAmpV (t ++ '&' :: 'v' :: '=' :: I) = some I := by
  induction t with
  | nil =>
    have h1 : lastAmpV ('v' :: '=' :: I) = none := by
      apply lastAmpV_no_amp
      intro c hc
      simp only [List.mem_cons] at hc
      rcases hc with rfl | rfl | hcI
      · decide
      · decide
      · exact (hsep c hcI).1
    show regexAlt (lastAmpV ('v' :: '=' :: I)) (capNonSep I) = some I
    rw [h1, capNonSep_eq_self I hne hsep]
    rfl
  | cons c t' ih =>
    show regexAlt (lastAmpV (t' ++ '&' :: 'v' :: '=' :: I))
        (if matchLit "&v=".data (c :: (t' ++ '&' :: 'v' :: '=' :: I)) then
          capNonSep ((c :: (t' ++ '&' :: 'v' :: '=' :: I)).drop 3) else none) = some I
    rw [ih]
    rfl

/-- A `v=` literal that fails on `q` also fails on `q ++ X`, provided
`X` itself starts with neither `v=` nor `=`. -/
theorem matchLit_vEq_append (q X : List Char) (hq : matchLit "v=".data q = false)
    (h1 : matchLit "v=".data X = false) (h2 : matchLit "=".data X = false) :
    matchLit "v=".data (q ++ X) = false := by
  match q with
  | [] => exact h1
  | [c] =>
    show ('v' == c && matchLit "=".data X) = false
    cases hvc : ('v' == c) with
    | false => rfl
    | true => rw [h2]; rfl
  | c :: d :: t =>
    have e : matchLit "v=".data ((c :: d :: t) ++ X) = matchLit "v=".data (c :: d :: t) := rfl
    rw [e]
    exact hq

/-- YouTube is checked first: any URL with a YouTube match resolves as
YouTube even if it would also match Vimeo. -/
theorem getVideoPlatform_yt_first (url : Option String) (i : String)
    (h : getYouTubeId url = some i) : getVideoPlatform url = some ⟨"youtube", i⟩ := by
  unfold getVideoPlatform
  rw [h]

/-- Vimeo is consulted only after YouTube fails. -/
theorem getVideoPlatform_vimeo_second (url : Option String) (j : String)
    (h1 : getYouTubeId url = none) (h2 : getVimeoId url = some j) :
    getVideoPlatform url = some ⟨"vimeo", j⟩ := by
  unfold getVideoPlatform
  rw [h1, h2]

/-- When neither pattern matches, the resolver returns null. -/
theorem getVideoPlatform_none (url : Option String)
    (h1 : getYouTubeId url = none) (h2 : getVimeoId url = none) :
    getVideoPlatform url = none := by
  unfold getVideoPlatform
  rw [h1, h2]

/-- A successful YouTube scan yields the id (as a string). -/
theorem getYouTubeId_of_scan (s : String) (r : List Char)
    (h : scanYouTube s.data = some r) : getYouTubeId (some s) = some ⟨r⟩ := by
  have hne : s ≠ "" := by
    intro hEq
    rw [hEq] at h
    exact Option.noConfusion h
  show (if s = "" then none else (scanYouTube s.data).map fun l => (⟨l⟩ : String)) = some ⟨r⟩
  rw [if_neg hne, h]
  rfl

/-- A failing YouTube scan makes `getYouTubeId` null. -/
theorem getYouTubeId_of_scan_none (s : String)
    (h : scanYouTube s.data = none) : getYouTubeId (some s) = none := by
  show (if s = "" then none else (scanYouTube s.data).map fun l => (⟨l⟩ : String)) = none
  by_cases hs : s = ""
  · rw [if_pos hs]
  · rw [if_neg hs, h]
    rfl

/-- A successful Vimeo scan yields the id (as a string). -/
theorem getVimeoId_of_scan (s : String) (r : List Char)
    (h : scanVimeo s.data = some r) : getVimeoId (some s) = some ⟨r⟩ := by
  have hne : s ≠ "" := by
    intro hEq
    rw [hEq] at h
    exact Option.noConfusion h
  show (if s = "" then none else (scanVimeo s.data).map fun l => (⟨l⟩ : String)) = some ⟨r⟩
  rw [if_neg hne, h]
  rfl

/-! ### Claim theorems -/

/-- C1: the claim says every close path (close button, backdrop,
Escape, force-replacement) removes both window listeners and the
document-level Escape keydown listener. The code contradicts it: after
opening one modal and closing it with the close button (or backdrop),
the modal is detached and the resize/orientation listeners are gone,
but the session's Escape keydown handler is still registered; opening a
second video on top of the first leaves two Escape handlers registered.
Only actually pressing Escape clears the handlers. -/
theorem c1_escape_listener_leak :
    (closeClick (showVideoPlayer initModal)).modals = []
    ∧ (closeClick (showVideoPlayer initModal)).resizeL = []
    ∧ (closeClick (showVideoPlayer initModal)).orientL = []
    ∧ (closeClick (showVideoPlayer initModal)).keyL = [0]
    ∧ (showVideoPlayer (showVideoPlayer initModal)).keyL = [0, 1]
    ∧ (pressEscape (showVideoPlayer initModal)).keyL = []
    ∧ (pressEscape (showVideoPlayer initModal)).modals = [] := by
  decide

/-- C3 counterexample: the claim says at most one modal exists after
any sequence of opens, but the teardown and the append are separated by
the `await fetchVimeoInfo` suspension. Two Vimeo opens dispatched from
the pristine page while the first is still awaiting its info fetch each
run their teardown phase against a document with no modal, and then
both appends land: two modal elements are in the document (and two
Escape handlers and two resize/orientation listener pairs are
registered). -/
theorem c3_overlapping_opens_counterexample :
    (showVideoPlayerFinish (showVideoPlayerFinish
        (showVideoPlayerBegin (showVideoPlayerBegin initModal)))).modals = [0, 1]
    ∧ (showVideoPlayerFinish (showVideoPlayerFinish
        (showVideoPlayerBegin (showVideoPlayerBegin initModal)))).modals.length ≠ 1
    ∧ (showVideoPlayerFinish (showVideoPlayerFinish
        (showVideoPlayerBegin (showVideoPlayerBegin initModal)))).keyL = [0, 1] := by
  decide

/-- C3 (amended): for opens that do not overlap — each open's teardown
and append run with no other open interleaved between them, which is
always the case for YouTube opens and for Vimeo opens whose info fetch
resolves before the next open starts — the invariant holds: starting
from a page with at most one modal attached (in particular the initial
page), any positive number of such opens leaves exactly one modal in
the document, each open first detaching the existing instance and then
appending the new one. Overlapping opens are excluded: an open
dispatched during another open's pending Vimeo-info fetch escapes the
teardown and two modals result. -/
theorem c3_single_modal (n : Nat) (s : ModalState)
    (hs : s.modals.length ≤ 1) (hn : 1 ≤ n) :
    (showVideoPlayer^[n] s).modals.length = 1 := by
  induction n with
  | zero => omega
  | succ m ih =>
    rw [Function.iterate_succ_apply']
    apply showVideoPlayer_modals_length
    rcases Nat.eq_zero_or_pos m with h0 | hpos
    · subst h0; simpa using hs
    · rw [ih hpos]

/-- C3 witness: two consecutive opens from the pristine page leave
exactly one modal. -/
theorem c3_single_modal_witness :
    initModal.modals.length ≤ 1 ∧ 1 ≤ 2
    ∧ (showVideoPlayer^[2] initModal).modals.length = 1 :=
  ⟨by decide, by decide, c3_single_modal 2 initModal (by decide) (by decide)⟩

/-- C4: `formatViews` renders `undefined`/`null`/`NaN`/`0` as `"0"`,
values below 1000 as the plain integer string, values from 1000 as the
one-decimal kilocount with trailing `.0` stripped and suffix `K`, and
values from 1000000 likewise with suffix `M`; in particular the six
documented sample points evaluate as the spec states. -/
theorem c4_formatViews_spec :
    formatViews .undef = "0" ∧ formatViews .null = "0" ∧ formatViews .nan = "0"
    ∧ formatViews (.int 0) = "0"
    ∧ formatViews (.int 999) = "999"
    ∧ formatViews (.int 1000) = "1K"
    ∧ formatViews (.int 1500) = "1.5K"
    ∧ formatViews (.int 1000000) = "1M"
    ∧ formatViews (.int 2500000) = "2.5M"
    ∧ (∀ n : Int, 0 < n → n < 1000 → formatViews (.int n) = toString n)
    ∧ (∀ n : Int, 1000 ≤ n → n < 1000000 →
        formatViews (.int n) = stripDotZero (toFixed1 n.toNat 1000) ++ "K")
    ∧ (∀ n : Int, 1000000 ≤ n →
        formatViews (.int n) = stripDotZero (toFixed1 n.toNat 1000000) ++ "M") := by
  refine ⟨by decide, by decide, by decide, by decide, by decide, by decide,
    by decide, by decide, by decide, ?_, ?_, ?_⟩
  · intro n h1 h2
    simp only [formatViews]
    rw [if_neg (by omega), if_neg (by omega), if_neg (by omega)]
  · intro n h1 h2
    simp only [formatViews]
    rw [if_neg (by omega), if_neg (by omega), if_pos (by omega)]
  · intro n h1
    simp only [formatViews]
    rw [if_neg (by omega), if_pos (by omega)]

/-- C4 witness: the quantified branches applied at 500, 5500 and
5500000. -/
theorem c4_formatViews_witness :
    ((0 : Int) < 500 ∧ (500 : Int) < 1000 ∧ formatViews (.int 500) = toString (500 : Int))
    ∧ ((1000 : Int) ≤ 5500 ∧ (5500 : Int) < 1000000
        ∧ formatViews (.int 5500) = stripDotZero (toFixed1 (Int.toNat 5500) 1000) ++ "K")
    ∧ ((1000000 : Int) ≤ 5500000
        ∧ formatViews (.int 5500000) = stripDotZero (toFixed1 (Int.toNat 5500000) 1000000) ++ "M") :=
  ⟨⟨by decide, by decide,
      c4_formatViews_spec.2.2.2.2.2.2.2.2.2.1 500 (by decide) (by decide)⟩,
   ⟨by decide, by decide,
      c4_formatViews_spec.2.2.2.2.2.2.2.2.2.2.1 5500 (by decide) (by decide)⟩,
   ⟨by decide,
      c4_formatViews_spec.2.2.2.2.2.2.2.2.2.2.2 5500000 (by decide)⟩⟩

/-- C2 counterexample: the claim says a successful fetch of a body
`(views: 0)` returns the reported integer 0 — but `data.views || null`
maps the falsy count 0 to null, so the fetch returns `none`, not
`some 0`. -/
theorem c2_fetch_views_counterexample :
    fetchYouTubeViews (some (JSNumber.int 0)) = none
    ∧ fetchYouTubeViews (some (JSNumber.int 0)) ≠ some 0 := by
  decide

/-- C2 (amended): the fetch returns the reported integer view count
when it is nonzero, and null when the count is 0, missing, `NaN`, or on
any network/parse failure; whenever it returns null, the caller leaves
the card's view-count text (and the whole card) unchanged. -/
theorem c2_fetch_views_amended :
    (∀ n : Int, n ≠ 0 → fetchYouTubeViews (some (.int n)) = some n)
    ∧ fetchYouTubeViews none = none
    ∧ fetchYouTubeViews (some (.int 0)) = none
    ∧ fetchYouTubeViews (some .undef) = none
    ∧ fetchYouTubeViews (some .nan) = none
    ∧ (∀ (card : Card) (r : Option JSNumber), fetchYouTubeViews r = none →
        applyViewCount card (fetchYouTubeViews r) = card) := by
  refine ⟨?_, by decide, by decide, by decide, by decide, ?_⟩
  · intro n h
    simp [fetchYouTubeViews, h]
  · intro card r h
    rw [h, applyViewCount]

/-- C2 witness: a nonzero count of 12345 is returned as-is, and a
failed fetch leaves a concrete card unchanged. -/
theorem c2_fetch_views_witness :
    ((12345 : Int) ≠ 0 ∧ fetchYouTubeViews (some (.int 12345)) = some 12345)
    ∧ (fetchYouTubeViews none = none
        ∧ applyViewCount (createVideoCard [("title", JSVal.str "T")] 0)
            (fetchYouTubeViews none) = createVideoCard [("title", JSVal.str "T")] 0) :=
  ⟨⟨by decide, c2_fetch_views_amended.1 12345 (by decide)⟩,
   ⟨by decide,
    c2_fetch_views_amended.2.2.2.2.2 (createVideoCard [("title", JSVal.str "T")] 0)
      none (by decide)⟩⟩

/-- C5: the platform resolver recognizes every listed YouTube form for
every nonempty separator-free id (each form optionally followed by a
`&`- or `?`-started remainder, so the id is the longest run up to the
next separator), `youtube.com/watch?<q>&v=<id>` for every nonempty
query part not itself starting with `v=`, and `vimeo.com/<digits>` for
every nonempty digit run; YouTube is checked before Vimeo and the first
match wins for every URL; any URL matching neither pattern — and the
empty string and a missing URL — resolves to null. Concrete full URLs
corroborate each clause. -/
theorem c5_platform_resolution :
    (∀ id sfx : String, id.data ≠ [] → (∀ c ∈ id.data, c ≠ '&' ∧ c ≠ '?') →
      (sfx.data = [] ∨ sfx.data.head? = some '&' ∨ sfx.data.head? = some '?') →
      getVideoPlatform (some ("youtu.be/" ++ id ++ sfx)) = some ⟨"youtube", id⟩)
    ∧ (∀ id sfx : String, id.data ≠ [] → (∀ c ∈ id.data, c ≠ '&' ∧ c ≠ '?') →
      (sfx.data = [] ∨ sfx.data.head? = some '&' ∨ sfx.data.head? = some '?') →
      getVideoPlatform (some ("youtube.com/embed/" ++ id ++ sfx)) = some ⟨"youtube", id⟩)
    ∧ (∀ id sfx : String, id.data ≠ [] → (∀ c ∈ id.data, c ≠ '&' ∧ c ≠ '?') →
      (sfx.data = [] ∨ sfx.data.head? = some '&' ∨ sfx.data.head? = some '?') →
      getVideoPlatform (some ("youtube.com/v/" ++ id ++ sfx)) = some ⟨"youtube", id⟩)
    ∧ (∀ id sfx : String, id.data ≠ [] → (∀ c ∈ id.data, c ≠ '&' ∧ c ≠ '?') →
      (sfx.data = [] ∨ sfx.data.head? = some '&' ∨ sfx.data.head? = some '?') →
      getVideoPlatform (some ("youtube.com/watch?v=" ++ id ++ sfx)) = some ⟨"youtube", id⟩)
    ∧ (∀ q id : String, q.data ≠ [] → matchLit "v=".data q.data = false →
      id.data ≠ [] → (∀ c ∈ id.data, c ≠ '&' ∧ c ≠ '?') →
      getVideoPlatform (some ("youtube.com/watch?" ++ q ++ "&v=" ++ id)) =
        some ⟨"youtube", id⟩)
    ∧ (∀ d : String, d.data ≠ [] → (∀ c ∈ d.data, c.isDigit) →
      getVideoPlatform (some ("vimeo.com/" ++ d)) = some ⟨"vimeo", d⟩)
    ∧ (∀ (url : Option String) (i : String), getYouTubeId url = some i →
      getVideoPlatform url = some ⟨"youtube", i⟩)
    ∧ (∀ (url : Option String) (j : String), getYouTubeId url = none →
      getVimeoId url = some j → getVideoPlatform url = some ⟨"vimeo", j⟩)
    ∧ (∀ url : Option String, getYouTubeId url = none → getVimeoId url = none →
      getVideoPlatform url = none)
    ∧ getVideoPlatform (some "https://youtu.be/abc123?t=10") = some ⟨"youtube", "abc123"⟩
    ∧ getVideoPlatform (some "https://www.youtube.com/embed/E1x") = some ⟨"youtube", "E1x"⟩
    ∧ getVideoPlatform (some "https://www.youtube.com/v/V1&x=2") = some ⟨"youtube", "V1"⟩
    ∧ getVideoPlatform (some "https://www.youtube.com/watch?v=dQw4w9WgXcQ") =
        some ⟨"youtube", "dQw4w9WgXcQ"⟩
    ∧ getVideoPlatform (some "https://www.youtube.com/watch?list=PL12&v=xyz_9") =
        some ⟨"youtube", "xyz_9"⟩
    ∧ getVideoPlatform (some "https://vimeo.com/76979871") = some ⟨"vimeo", "76979871"⟩
    ∧ getVideoPlatform (some "https://vimeo.com/123?u=youtu.be/zzz") = some ⟨"youtube", "zzz"⟩
    ∧ getVideoPlatform (some "https://example.com/video") = none
    ∧ getVideoPlatform (some "") = none
    ∧ getVideoPlatform none = none := by
  refine ⟨?_, ?_, ?_, ?_, ?_, ?_,
    getVideoPlatform_yt_first, getVideoPlatform_vimeo_second, getVideoPlatform_none,
    by decide, by decide, by decide, by decide, by decide, by decide,
    by decide, by decide, by decide, by decide⟩
  · -- youtu.be/<id><sfx>
    intro id sfx hne hsep hs
    have hcap := capNonSep_append id.data hne hsep sfx.data hs
    have htry : tryYouTubeAt ("youtu.be/".data ++ (id.data ++ sfx.data)) =
        some id.data := by
      rw [show tryYouTubeAt ("youtu.be/".data ++ (id.data ++ sfx.data)) =
          regexAlt (capNonSep (id.data ++ sfx.data)) none from rfl, hcap]
      rfl
    exact getVideoPlatform_yt_first _ _
      (getYouTubeId_of_scan ("youtu.be/" ++ id ++ sfx) id.data
        (scanYouTube_cons_of_some _ _ _ htry))
  · -- youtube.com/embed/<id><sfx>
    intro id sfx hne hsep hs
    have hcap := capNonSep_append id.data hne hsep sfx.data hs
    have htry : tryYouTubeAt ("youtube.com/embed/".data ++ (id.data ++ sfx.data)) =
        some id.data := by
      rw [show tryYouTubeAt ("youtube.com/embed/".data ++ (id.data ++ sfx.data)) =
          regexAlt (capNonSep (id.data ++ sfx.data)) none from rfl, hcap]
      rfl
    exact getVideoPlatform_yt_first _ _
      (getYouTubeId_of_scan ("youtube.com/embed/" ++ id ++ sfx) id.data
        (scanYouTube_cons_of_some _ _ _ htry))
  · -- youtube.com/v/<id><sfx>
    intro id sfx hne hsep hs
    have hcap := capNonSep_append id.data hne hsep sfx.data hs
    have htry : tryYouTubeAt ("youtube.com/v/".data ++ (id.data ++ sfx.data)) =
        some id.data := by
      rw [show tryYouTubeAt ("youtube.com/v/".data ++ (id.data ++ sfx.data)) =
          regexAlt (capNonSep (id.data ++ sfx.data)) none from rfl, hcap]
      rfl
    exact getVideoPlatform_yt_first _ _
      (getYouTubeId_of_scan ("youtube.com/v/" ++ id ++ sfx) id.data
        (scanYouTube_cons_of_some _ _ _ htry))
  · -- youtube.com/watch?v=<id><sfx>
    intro id sfx hne hsep hs
    have hcap := capNonSep_append id.data hne hsep sfx.data hs
    have htry : tryYouTubeAt ("youtube.com/watch?v=".data ++ (id.data ++ sfx.data)) =
        some id.data := by
      rw [show tryYouTubeAt ("youtube.com/watch?v=".data ++ (id.data ++ sfx.data)) =
          regexAlt (capNonSep (id.data ++ sfx.data))
            (lastAmpV ('=' :: (id.data ++ sfx.data))) from rfl, hcap]
      rfl
    exact getVideoPlatform_yt_first _ _
      (getYouTubeId_of_scan ("youtube.com/watch?v=" ++ id ++ sfx) id.data
        (scanYouTube_cons_of_some _ _ _ htry))
  · -- youtube.com/watch?<q>&v=<id>
    intro q id hq hqv hne hsep
    have hd : ("youtube.com/watch?" ++ q ++ "&v=" ++ id).data
        = "youtube.com/watch?".data ++ (q.data ++ ('&' :: 'v' :: '=' :: id.data)) := by
      show ((("youtube.com/watch?".data ++ q.data) ++ ('&' :: 'v' :: '=' :: [])) ++ id.data)
          = "youtube.com/watch?".data ++ (q.data ++ ('&' :: 'v' :: '=' :: id.data))
      simp [List.append_assoc]
    obtain ⟨c, t, hqd⟩ : ∃ c t, q.data = c :: t := by
      cases hqe : q.data with
      | nil => exact absurd hqe hq
      | cons c t => exact ⟨c, t, rfl⟩
    have hvfalse : matchLit "v=".data (q.data ++ ('&' :: 'v' :: '=' :: id.data)) = false :=
      matchLit_vEq_append q.data _ hqv rfl rfl
    have hlast : lastAmpV (t ++ '&' :: 'v' :: '=' :: id.data) = some id.data :=
      lastAmpV_marker t id.data hne hsep
    have hw : tryWatch (q.data ++ ('&' :: 'v' :: '=' :: id.data)) = some id.data := by
      rw [hqd] at hvfalse ⊢
      show regexAlt
          (if matchLit "v=".data ((c :: t) ++ ('&' :: 'v' :: '=' :: id.data)) then
            capNonSep (((c :: t) ++ ('&' :: 'v' :: '=' :: id.data)).drop 2) else none)
          (lastAmpV (t ++ '&' :: 'v' :: '=' :: id.data)) = some id.data
      rw [hvfalse, hlast]
      rfl
    have htry : tryYouTubeAt
        ("youtube.com/watch?".data ++ (q.data ++ ('&' :: 'v' :: '=' :: id.data))) =
        some id.data := by
      rw [show tryYouTubeAt
          ("youtube.com/watch?".data ++ (q.data ++ ('&' :: 'v' :: '=' :: id.data))) =
          tryWatch (q.data ++ ('&' :: 'v' :: '=' :: id.data)) from rfl, hw]
    have hsc : scanYouTube ("youtube.com/watch?" ++ q ++ "&v=" ++ id).data =
        some id.data := by
      rw [hd]
      exact scanYouTube_cons_of_some _ _ _ htry
    exact getVideoPlatform_yt_first _ _ (getYouTubeId_of_scan _ id.data hsc)
  · -- vimeo.com/<digits>
    intro d hne hdig
    have hytnone : getYouTubeId (some ("vimeo.com/" ++ d)) = none := by
      apply getYouTubeId_of_scan_none
      rw [show ("vimeo.com/" ++ d).data = "vimeo.com/".data ++ d.data from rfl]
      apply scanYouTube_none
      intro c hc
      rw [List.mem_append] at hc
      rcases hc with hc | hc
      · fin_cases hc <;> decide
      · intro hcy
        subst hcy
        exact absurd (hdig 'y' hc) (by decide)
    have hcapd : capDigits d.data = some d.data := capDigits_eq_self d.data hne hdig
    have htryv : tryVimeoAt ("vimeo.com/".data ++ d.data) = some d.data := by
      rw [show tryVimeoAt ("vimeo.com/".data ++ d.data) = capDigits d.data from rfl, hcapd]
    have hscv : scanVimeo ("vimeo.com/" ++ d).data = some d.data := by
      rw [show ("vimeo.com/" ++ d).data = "vimeo.com/".data ++ d.data from rfl]
      exact scanVimeo_cons_of_some _ _ _ htryv
    exact getVideoPlatform_vimeo_second _ _ hytnone (getVimeoId_of_scan _ d.data hscv)

/-- C5 witness: the quantified clauses applied at concrete inputs — the
`youtu.be` form at id `dQw4w9WgXcQ` with remainder `?t=10`, and the
`watch?<q>&v=` form at query `list=PL12` and id `xyz`. -/
theorem c5_platform_resolution_witness :
    (("dQw4w9WgXcQ" : String).data ≠ []
      ∧ (∀ c ∈ ("dQw4w9WgXcQ" : String).data, c ≠ '&' ∧ c ≠ '?')
      ∧ (("?t=10" : String).data = [] ∨ ("?t=10" : String).data.head? = some '&'
          ∨ ("?t=10" : String).data.head? = some '?')
      ∧ getVideoPlatform (some ("youtu.be/" ++ "dQw4w9WgXcQ" ++ "?t=10")) =
          some ⟨"youtube", "dQw4w9WgXcQ"⟩)
    ∧ (("list=PL12" : String).data ≠ []
      ∧ matchLit "v=".data ("list=PL12" : String).data = false
      ∧ ("xyz" : String).data ≠ []
      ∧ (∀ c ∈ ("xyz" : String).data, c ≠ '&' ∧ c ≠ '?')
      ∧ getVideoPlatform (some ("youtube.com/watch?" ++ "list=PL12" ++ "&v=" ++ "xyz")) =
          some ⟨"youtube", "xyz"⟩) :=
  ⟨⟨by decide, by decide, by decide,
    c5_platform_resolution.1 "dQw4w9WgXcQ" "?t=10" (by decide) (by decide) (by decide)⟩,
   ⟨by decide, by decide, by decide, by decide,
    c5_platform_resolution.2.2.2.2.1 "list=PL12" "xyz" (by decide) (by decide)
      (by decide) (by decide)⟩⟩

/-- C6: when the catalog response does not match the callback envelope
or the extracted payload fails to parse as JSON, the loader lands in
its catch block: the grid keeps exactly its previous cards, the
entrance animation re-runs, and no enrichment (and no user-visible
error) happens. -/
theorem c6_load_failure_keeps_grid (text : String) (pj : String → Option Table)
    (grid : List Card)
    (h : envelopeExtract text = none
      ∨ ∃ p, envelopeExtract text = some p ∧ pj p = none) :
    loadVideosFromSheet (some text) pj grid = ⟨grid, true, false⟩ := by
  rcases h with h1 | ⟨p, hp, hpj⟩
  · simp [loadVideosFromSheet, h1]
  · simp [loadVideosFromSheet, hp, hpj]

/-- C6 witness: an HTML error page fails the envelope match and leaves
a one-card grid untouched. -/
theorem c6_load_failure_witness :
    (envelopeExtract "<html>error</html>" = none
      ∨ ∃ p, envelopeExtract "<html>error</html>" = some p ∧ (fun _ => (none : Option Table)) p = none)
    ∧ loadVideosFromSheet (some "<html>error</html>") (fun _ => none)
        [createVideoCard [("title", JSVal.str "Old")] 0] =
      ⟨[createVideoCard [("title", JSVal.str "Old")] 0], true, false⟩ :=
  ⟨Or.inl (by decide),
   c6_load_failure_keeps_grid "<html>error</html>" (fun _ => none)
     [createVideoCard [("title", JSVal.str "Old")] 0] (Or.inl (by decide))⟩

/-- `rowToCard` over a list is a filter on truthy titles followed by a
map to cards. -/
theorem filterMap_rowToCard (cols : List String) (l : List (Nat × List (Option Cell))) :
    l.filterMap (rowToCard cols) =
      ((l.filter fun p => titledVideo (buildVideo cols p.2)).map
        fun p => createVideoCard (buildVideo cols p.2) p.1) := by
  induction l with
  | nil => rfl
  | cons a t ih =>
    have hr : rowToCard cols a =
        if titledVideo (buildVideo cols a.2) then
          some (createVideoCard (buildVideo cols a.2) a.1)
        else none := rfl
    rw [List.filterMap_cons, List.filter_cons, hr]
    by_cases h : titledVideo (buildVideo cols a.2) <;> simp [h, ih]

/-- A card rendered without any thumbnail gets the fallback gradient at
palette position `index % 6`. -/
theorem thumbBackground_fallback (video : List (String × JSVal)) (index : Nat)
    (h : getThumbnail (videoUrlOf video) (getField video "thumbnail") = none) :
    (createVideoCard video index).thumbBackground =
      "linear-gradient(135deg, " ++ ((FALLBACK_GRADIENTS.get? (index % 6)).getD ("", "")).1
        ++ ", " ++ ((FALLBACK_GRADIENTS.get? (index % 6)).getD ("", "")).2 ++ ")" := by
  have h6 : FALLBACK_GRADIENTS.length = 6 := rfl
  simp [createVideoCard, h, h6]

/-- C7: with a well-formed table of one header row plus at least one
data row, the loader renders the data rows only (row 0 is skipped),
keeps exactly the rows whose record has a truthy title, in original
order, each card built at its original data-row index; a card without a
thumbnail takes the fallback gradient at position `index % 6` of the
6-entry palette. -/
theorem c7_render_rows :
    (∀ (cols : List ColSpec) (header : List (Option Cell))
        (dataRows : List (List (Option Cell))) (grid : List Card),
      dataRows ≠ [] →
      renderRows ⟨cols, header :: dataRows⟩ grid =
        ((dataRows.enum.filter fun p =>
            titledVideo (buildVideo (cols.enum.map fun q => colName q.2 q.1) p.2)).map
          fun p => createVideoCard (buildVideo (cols.enum.map fun q => colName q.2 q.1) p.2) p.1))
    ∧ (∀ (video : List (String × JSVal)) (index : Nat),
        getThumbnail (videoUrlOf video) (getField video "thumbnail") = none →
        (createVideoCard video index).thumbBackground =
          "linear-gradient(135deg, " ++ ((FALLBACK_GRADIENTS.get? (index % 6)).getD ("", "")).1
            ++ ", " ++ ((FALLBACK_GRADIENTS.get? (index % 6)).getD ("", "")).2 ++ ")")
    ∧ FALLBACK_GRADIENTS.length = 6 := by
  refine ⟨?_, thumbBackground_fallback, by decide⟩
  intro cols header dataRows grid hne
  have h0 : 0 < dataRows.length := List.length_pos.mpr hne
  unfold renderRows
  rw [if_pos (by simp; omega)]
  simp only [List.drop_succ_cons, List.drop_zero]
  exact filterMap_rowToCard _ _

/-- C7 witness: a header plus three data rows, the middle one with a
blank title, renders exactly the two titled rows in order. -/
theorem c7_render_rows_witness :
    ([c7row "A", c7row "", c7row "B"] ≠ ([] : List (List (Option Cell))))
    ∧ renderRows ⟨c7cols, c7row "Title" :: [c7row "A", c7row "", c7row "B"]⟩ [] =
      (([c7row "A", c7row "", c7row "B"].enum.filter fun p =>
          titledVideo (buildVideo (c7cols.enum.map fun q => colName q.2 q.1) p.2)).map
        fun p => createVideoCard (buildVideo (c7cols.enum.map fun q => colName q.2 q.1) p.2) p.1) :=
  ⟨by decide,
   c7_render_rows.1 c7cols (c7row "Title") [c7row "A", c7row "", c7row "B"] [] (by decide)⟩

/-- C8: the modal layout classifier yields exactly one of three
mutually exclusive modes — portrait-video iff the aspect ratio is below
1 (YouTube's fixed 16/9 never is), landscape-video-on-small-screen iff
not portrait but the viewport is landscape (`width > height`) and
mobile (`width < 768` or `height < 500`), default otherwise with
`maxWidth` 800px — and classifies the three documented sample
viewports accordingly. -/
theorem c8_layout_classification :
    classifyLayoutAR 1920 1080 (16 / 9) = .defaultMode
    ∧ classifyLayoutAR 400 800 (1 / 2) = .portraitVideo
    ∧ classifyLayoutAR 900 400 (16 / 9) = .landscapeSmall
    ∧ (∀ (vw vh : Nat) (ar : Rat),
        (classifyLayoutAR vw vh ar = .portraitVideo ↔ ar < 1)
        ∧ (classifyLayoutAR vw vh ar = .landscapeSmall ↔
            ¬ar < 1 ∧ (vh < vw ∧ (vw < 768 ∨ vh < 500)))
        ∧ (classifyLayoutAR vw vh ar = .defaultMode ↔
            ¬ar < 1 ∧ ¬(vh < vw ∧ (vw < 768 ∨ vh < 500))))
    ∧ (∀ (vw vh : Nat) (r : Rat),
        classifyLayoutAR vw vh (modalAspect "youtube" r) ≠ .portraitVideo)
    ∧ contentMaxWidth .defaultMode = "800px" := by
  refine ⟨?_, ?_, ?_, ?_, ?_, by decide⟩
  · unfold classifyLayoutAR
    rw [decide_eq_false (by norm_num : ¬((16 : Rat) / 9 < 1))]
    decide
  · unfold classifyLayoutAR
    rw [decide_eq_true (by norm_num : ((1 : Rat) / 2 < 1))]
    decide
  · unfold classifyLayoutAR
    rw [decide_eq_false (by norm_num : ¬((16 : Rat) / 9 < 1))]
    decide
  · intro vw vh ar
    unfold classifyLayoutAR classifyLayout
    by_cases har : ar < 1
    · simp [har]
    · by_cases h1 : vh < vw <;> by_cases h2 : vw < 768 <;> by_cases h3 : vh < 500 <;>
        simp [har, h1, h2, h3]
  · intro vw vh r
    have ha : modalAspect "youtube" r = 16 / 9 := by
      unfold modalAspect
      rw [if_neg (by decide : ¬(("youtube" : String) = "vimeo"))]
    rw [ha]
    unfold classifyLayoutAR classifyLayout
    rw [decide_eq_false (by norm_num : ¬((16 : Rat) / 9 < 1))]
    by_cases hc : (decide (vh < vw) && (decide (vw < 768) || decide (vh < 500))) = true <;>
      simp [hc]

/-- C8 witness: the YouTube-never-portrait part applied to a concrete
mobile-landscape viewport. -/
theorem c8_layout_classification_witness :
    classifyLayoutAR 700 350 (modalAspect "youtube" (1 / 2)) ≠ .portraitVideo :=
  c8_layout_classification.2.2.2.2.1 700 350 (1 / 2)

/-- C9: when the catalog response parses but its table has at most one
row (header only or empty), the loader leaves the grid exactly as it
was, while the entrance animation and both enrichment passes still
run. -/
theorem c9_short_table_keeps_grid (text payload : String)
    (pj : String → Option Table) (grid : List Card) (table : Table)
    (h1 : envelopeExtract text = some payload) (h2 : pj payload = some table)
    (h3 : table.rows.length ≤ 1) :
    loadVideosFromSheet (some text) pj grid = ⟨grid, true, true⟩ := by
  have h4 : ¬1 < table.rows.length := by omega
  simp [loadVideosFromSheet, h1, h2, renderRows, h4]

/-- C9 witness: a well-formed envelope whose payload parses to a table
with zero rows leaves a one-card grid in place and still animates and
enriches. -/
theorem c9_short_table_witness :
    envelopeExtract "google.visualization.Query.setResponse(x);" = some "x"
    ∧ (fun _ => some (⟨[], []⟩ : Table)) "x" = some (⟨[], []⟩ : Table)
    ∧ (⟨[], []⟩ : Table).rows.length ≤ 1
    ∧ loadVideosFromSheet (some "google.visualization.Query.setResponse(x);")
        (fun _ => some (⟨[], []⟩ : Table))
        [createVideoCard [("title", JSVal.str "Kept")] 0] =
      ⟨[createVideoCard [("title", JSVal.str "Kept")] 0], true, true⟩ :=
  ⟨by decide, by decide, by decide,
   c9_short_table_keeps_grid "google.visualization.Query.setResponse(x);" "x"
     (fun _ => some ⟨[], []⟩) [createVideoCard [("title", JSVal.str "Kept")] 0]
     ⟨[], []⟩ (by decide) (by decide) (by decide)⟩

/-- C10 counterexample: the claim says a Vimeo card rendered with an
explicit custom thumbnail gets no fetch and keeps its thumbnail. But
the code's guard is a substring check of the background for
`linear-gradient`, so a custom thumbnail URL containing that substring
is fetched and overwritten. -/
theorem c10_custom_thumbnail_counterexample :
    (createVideoCard c10video 0).platform = some ("vimeo", "123")
    ∧ getThumbnail (videoUrlOf c10video) (getField c10video "thumbnail") =
        some "https://cdn.example.com/linear-gradient-art.jpg"
    ∧ (updateVimeoThumbnails [createVideoCard c10video 0]
        (fun _ => some "https://i.vimeocdn.com/t.jpg")).2 = ["123"]
    ∧ (updateVimeoThumbnails [createVideoCard c10video 0]
        (fun _ => some "https://i.vimeocdn.com/t.jpg")).1 ≠
        [createVideoCard c10video 0] := by
  decide

/-- C10 (amended): enrichment fetches and overwrites a Vimeo card's
thumbnail exactly when its background string contains the substring
`linear-gradient`; every fallback-gradient card qualifies, and a
custom-thumbnail card is skipped unless its thumbnail URL itself
contains that substring. -/
theorem c10_vimeo_enrichment_amended :
    (∀ (f : String → Option String) (card : Card),
      containsStr card.thumbBackground "linear-gradient" = false →
      enrichVimeoCard f card = card ∧ vimeoFetchTarget card = none)
    ∧ (∀ (f : String → Option String) (card : Card) (vid u : String),
        card.platform = some ("vimeo", vid) →
        containsStr card.thumbBackground "linear-gradient" = true →
        f vid = some u →
        enrichVimeoCard f card =
          { card with thumbBackground := "url('" ++ u ++ "') center/cover" }
        ∧ vimeoFetchTarget card = some vid)
    ∧ (∀ (cards : List Card) (f : String → Option String),
        updateVimeoThumbnails cards f =
          (cards.map (enrichVimeoCard f), cards.filterMap vimeoFetchTarget))
    ∧ (∀ (video : List (String × JSVal)) (index : Nat),
        getThumbnail (videoUrlOf video) (getField video "thumbnail") = none →
        containsStr (createVideoCard video index).thumbBackground "linear-gradient" = true) := by
  refine ⟨?_, ?_, fun _ _ => rfl, ?_⟩
  · intro f card h
    unfold enrichVimeoCard vimeoFetchTarget
    match hp : card.platform with
    | none => exact ⟨rfl, rfl⟩
    | some p =>
      by_cases hv : p.1 = "vimeo" <;> simp [hv, h]
  · intro f card vid u hp hc hf
    unfold enrichVimeoCard vimeoFetchTarget
    rw [hp]
    simp [hc, hf]
  · intro video index h
    rw [thumbBackground_fallback video index h]
    rfl

/-- C10 witness: a genuine fallback-gradient Vimeo card is fetched and
overwritten, and a custom-thumbnail card (without the substring) is
untouched. -/
theorem c10_vimeo_enrichment_witness :
    (containsStr (createVideoCard [("title", JSVal.str "V"),
        ("videourl", JSVal.str "https://vimeo.com/77"),
        ("thumbnail", JSVal.str "https://cdn.example.com/pic.jpg")] 1).thumbBackground
        "linear-gradient" = false
      ∧ enrichVimeoCard (fun _ => some "https://i.vimeocdn.com/t.jpg")
          (createVideoCard [("title", JSVal.str "V"),
            ("videourl", JSVal.str "https://vimeo.com/77"),
            ("thumbnail", JSVal.str "https://cdn.example.com/pic.jpg")] 1) =
        createVideoCard [("title", JSVal.str "V"),
          ("videourl", JSVal.str "https://vimeo.com/77"),
          ("thumbnail", JSVal.str "https://cdn.example.com/pic.jpg")] 1)
    ∧ getThumbnail (videoUrlOf [("title", JSVal.str "G"),
          ("videourl", JSVal.str "https://vimeo.com/88")])
        (getField [("title", JSVal.str "G"),
          ("videourl", JSVal.str "https://vimeo.com/88")] "thumbnail") = none
    ∧ containsStr (createVideoCard [("title", JSVal.str "G"),
        ("videourl", JSVal.str "https://vimeo.com/88")] 2).thumbBackground
        "linear-gradient" = true :=
  ⟨⟨by decide,
    (c10_vimeo_enrichment_amended.1 (fun _ => some "https://i.vimeocdn.com/t.jpg")
      (createVideoCard [("title", JSVal.str "V"),
        ("videourl", JSVal.str "https://vimeo.com/77"),
        ("thumbnail", JSVal.str "https://cdn.example.com/pic.jpg")] 1) (by decide)).1⟩,
   by decide,
   c10_vimeo_enrichment_amended.2.2.2 [("title", JSVal.str "G"),
     ("videourl", JSVal.str "https://vimeo.com/88")] 2 (by decide)⟩

end Script
